import Mathlib

/-!
Verification of the filename-based view/laterality classification, the
risk-class display mapping, and the analyze-response result mapping of
the breast-cancer screening frontend (src/frontend/src/App.js), via a
shallow embedding in Lean.

JavaScript strings are modelled as Lean `String`; `String.prototype.includes`
is modelled by an executable substring test over the character list;
`toUpperCase`/`toLowerCase` by per-character ASCII case mapping (the
tokens, view codes and labels involved are ASCII); absent (`undefined`) JSON
fields by `Option`; JS numbers by `ℚ`.
-/

namespace BreastCancer

/-- ASCII uppercase of one character, as JS `toUpperCase` acts on ASCII. -/
def charUpper (c : Char) : Char :=
  if 'a' ≤ c ∧ c ≤ 'z' then Char.ofNat (c.toNat - 32) else c

/-- ASCII lowercase of one character, as JS `toLowerCase` acts on ASCII. -/
def charLower (c : Char) : Char :=
  if 'A' ≤ c ∧ c ≤ 'Z' then Char.ofNat (c.toNat + 32) else c

/-- Model of JS `s.toUpperCase()` restricted to ASCII. -/
def toUpperJS (s : String) : String := ⟨s.data.map charUpper⟩

/-- Model of JS `s.toLowerCase()` restricted to ASCII. -/
def toLowerJS (s : String) : String := ⟨s.data.map charLower⟩

/-- Boolean prefix test on character lists: does the first list start the second? -/
def isPrefixCL : List Char → List Char → Bool
  | [], _ => true
  | _ :: _, [] => false
  | a :: as, b :: bs => a == b && isPrefixCL as bs

/-- Boolean occurrence test: does `t` occur contiguously inside the second list? -/
def occursIn (t : List Char) : List Char → Bool
  | [] => t.isEmpty
  | c :: rest => isPrefixCL t (c :: rest) || occursIn t rest

/-- Model of JavaScript `s.includes(sub)`: `sub` is a contiguous substring of `s`. -/
def jsIncludes (s sub : String) : Bool := occursIn sub.data s.data

/-- The first if-condition of `extractViewCodeFromFilename` (App.js:239). -/
def matchesLMLO (u : String) : Bool :=
  jsIncludes u "LMLO" || jsIncludes u "LEFT_MLO" || jsIncludes u "L-MLO"

/-- The second if-condition of `extractViewCodeFromFilename` (App.js:241). -/
def matchesRMLO (u : String) : Bool :=
  jsIncludes u "RMLO" || jsIncludes u "RIGHT_MLO" || jsIncludes u "R-MLO"

/-- The third if-condition of `extractViewCodeFromFilename` (App.js:243). -/
def matchesLCC (u : String) : Bool :=
  jsIncludes u "LCC" || jsIncludes u "LEFT_CC" || jsIncludes u "L-CC"

/-- The fourth if-condition of `extractViewCodeFromFilename` (App.js:245). -/
def matchesRCC (u : String) : Bool :=
  jsIncludes u "RCC" || jsIncludes u "RIGHT_CC" || jsIncludes u "R-CC"

/-- The fifth if-condition of `extractViewCodeFromFilename` (App.js:247). -/
def matchesMLO (u : String) : Bool := jsIncludes u "MLO"

/-- The sixth if-condition of `extractViewCodeFromFilename` (App.js:249). -/
def matchesCC (u : String) : Bool := jsIncludes u "CC"

/-- Embedding of `extractViewCodeFromFilename` (App.js:234-254): uppercase the
filename, then run the six checks as an if/else chain, returning `null`
(`none`) when none fires. -/
def extractViewCodeFromFilename (filename : String) : Option String :=
  let upperName := toUpperJS filename
  if matchesLMLO upperName then some "L-MLO"
  else if matchesRMLO upperName then some "R-MLO"
  else if matchesLCC upperName then some "LCC"
  else if matchesRCC upperName then some "RCC"
  else if matchesMLO upperName then some "MLO"
  else if matchesCC upperName then some "CC"
  else none

/-- The provisional view-analysis record the frontend attaches to results. -/
structure ViewAnalysis where
  view_code : String
  laterality : String
  laterality_code : String
  image_quality : String
  quality_score : Option ℚ
deriving Repr, DecidableEq

/-- Embedding of the view-analysis construction in `handleFileChange`
(App.js:215-228): extract the view code from the filename; when truthy,
attach the provisional record with laterality derived from the code. -/
def handleFileChangeView (filename : String) : Option ViewAnalysis :=
  match extractViewCodeFromFilename filename with
  | some viewCode => some
      { view_code := viewCode
        laterality :=
          if jsIncludes viewCode "L" && !(jsIncludes viewCode "R") then "Left" else "Right"
        laterality_code :=
          if jsIncludes viewCode "L" && !(jsIncludes viewCode "R") then "L" else "R"
        image_quality := "Analyzing..."
        quality_score := none }
  | none => none

/-- Embedding of the view-analysis construction in `handleDrop`
(App.js:273-285); the body is the same as on the file-select path. -/
def handleDropView (filename : String) : Option ViewAnalysis :=
  match extractViewCodeFromFilename filename with
  | some viewCode => some
      { view_code := viewCode
        laterality :=
          if jsIncludes viewCode "L" && !(jsIncludes viewCode "R") then "Left" else "Right"
        laterality_code :=
          if jsIncludes viewCode "L" && !(jsIncludes viewCode "R") then "L" else "R"
        image_quality := "Analyzing..."
        quality_score := none }
  | none => none

/-- Embedding of `getRiskClass` (App.js:515-530): lowercase the risk label
(empty when absent) and test substrings from most to least specific. -/
def getRiskClass (risk : Option String) : String :=
  let r := (risk.map toLowerJS).getD ""
  if jsIncludes r "very high risk" then "risk-high"
  else if jsIncludes r "high risk" && !(jsIncludes r "moderate") then "risk-high"
  else if jsIncludes r "moderate" then "risk-moderate"
  else if jsIncludes r "very low risk" then "risk-low"
  else if jsIncludes r "low risk" then "risk-low"
  else ""

/-- The fields of the `/analyze` JSON response relevant to the confidence and
threshold mapping; `none` models an absent (`undefined`) field. -/
structure AnalyzeResponse where
  confidence : Option ℚ
  threshold : Option ℚ
deriving Repr

/-- The confidence/threshold slice of the `resultData` record built by
`analyzeFile` (App.js:343-366). -/
structure ResultData where
  confidence : Option ℚ
  rawScore : Option ℚ
  threshold : ℚ
deriving Repr

/-- Embedding of the confidence/threshold part of `analyzeFile`
(App.js:343-366): `confidencePercent` is `confidence * 100` when the raw
confidence is defined and `≤ 1`, the raw confidence when defined and `> 1`,
and `null` when absent; `threshold` defaults to `0.5` when absent. -/
def buildResultData (data : AnalyzeResponse) : ResultData :=
  let confidencePercent :=
    match data.confidence with
    | some c => if c ≤ 1 then some (c * 100) else some c
    | none => none
  { confidence := confidencePercent
    rawScore := data.confidence
    threshold := data.threshold.getD (1/2) }

/-- The ordered matcher table of spec §4.5: first-match-wins in the order
L-MLO, R-MLO, LCC, RCC, generic MLO, generic CC. Stated from the spec's
words, to be compared with `extractViewCodeFromFilename`. -/
def viewOrder : List ((String → Bool) × String) :=
  [(matchesLMLO, "L-MLO"), (matchesRMLO, "R-MLO"), (matchesLCC, "LCC"),
   (matchesRCC, "RCC"), (matchesMLO, "MLO"), (matchesCC, "CC")]

/-- First-match-wins semantics over `viewOrder`, stated from the spec's words:
the view code of the earliest entry whose matcher fires on the uppercased
name. -/
def firstMatchViewCode (u : String) : Option String :=
  (viewOrder.find? (fun p => p.1 u)).map Prod.snd

/-- The drag-and-drop path builds the same provisional record as the
file-select path: the two code blocks are identical. -/
theorem handleDropView_eq (filename : String) :
    handleDropView filename = handleFileChangeView filename := rfl

/-- On any extracted view record, the laterality fields are the stated
functions of the boolean `contains L and not R` test on the view code. -/
theorem view_record_fields (filename : String) (va : ViewAnalysis)
    (h : handleFileChangeView filename = some va ∨ handleDropView filename = some va) :
    (va.laterality = if jsIncludes va.view_code "L" && !(jsIncludes va.view_code "R")
        then "Left" else "Right") ∧
    (va.laterality_code = if jsIncludes va.view_code "L" && !(jsIncludes va.view_code "R")
        then "L" else "R") := by
  rw [handleDropView_eq, or_self] at h
  unfold handleFileChangeView at h
  cases hx : extractViewCodeFromFilename filename <;> rw [hx] at h
  · exact Option.noConfusion h
  · injection h with h
    subst h
    exact ⟨rfl, rfl⟩

/-- C1: filename-based view classification is first-match-wins in the fixed
order L-MLO, R-MLO, LCC, RCC, generic MLO, generic CC — the code's if/else
chain agrees, on every filename, with the spec's ordered-first-match table. -/
theorem extract_is_first_match (filename : String) :
    extractViewCodeFromFilename filename = firstMatchViewCode (toUpperJS filename) := by
  unfold extractViewCodeFromFilename firstMatchViewCode viewOrder
  cases h1 : matchesLMLO (toUpperJS filename) <;>
  cases h2 : matchesRMLO (toUpperJS filename) <;>
  cases h3 : matchesLCC (toUpperJS filename) <;>
  cases h4 : matchesRCC (toUpperJS filename) <;>
  cases h5 : matchesMLO (toUpperJS filename) <;>
  cases h6 : matchesCC (toUpperJS filename) <;>
  simp [List.find?, h1, h2, h3, h4, h5, h6]

/-- C2: for every extracted view record, laterality is "Left" exactly when the
view code contains "L" and not "R", and "Right" otherwise, with
laterality_code "L"/"R" correspondingly. -/
theorem laterality_from_view_code (filename : String) (va : ViewAnalysis)
    (h : handleFileChangeView filename = some va) :
    (va.laterality = "Left" ↔
      (jsIncludes va.view_code "L" = true ∧ jsIncludes va.view_code "R" = false)) ∧
    (va.laterality = "Right" ↔
      ¬(jsIncludes va.view_code "L" = true ∧ jsIncludes va.view_code "R" = false)) ∧
    (va.laterality_code = "L" ↔ va.laterality = "Left") ∧
    (va.laterality_code = "R" ↔ va.laterality = "Right") := by
  obtain ⟨h1, h2⟩ := view_record_fields filename va (Or.inl h)
  rw [h1, h2]
  cases hL : jsIncludes va.view_code "L" <;>
  cases hR : jsIncludes va.view_code "R" <;>
  simp

/-- Witness for C2 at the concrete filename "patient_L-MLO_01.png". -/
theorem laterality_from_view_code_witness :
    (("Left" : String) = "Left" ↔
      (jsIncludes "L-MLO" "L" = true ∧ jsIncludes "L-MLO" "R" = false)) ∧
    (("Left" : String) = "Right" ↔
      ¬(jsIncludes "L-MLO" "L" = true ∧ jsIncludes "L-MLO" "R" = false)) ∧
    (("L" : String) = "L" ↔ ("Left" : String) = "Left") ∧
    (("L" : String) = "R" ↔ ("Left" : String) = "Right") :=
  laterality_from_view_code "patient_L-MLO_01.png"
    (ViewAnalysis.mk "L-MLO" "Left" "L" "Analyzing..." none) (by decide)

/-- C3 counterexample: the filename "L-MLO_R-CC.png" contains both an L side
token ("L-MLO") and an R side token ("R-CC"), yet the classification yields
laterality "Left", not "Right" — laterality is computed from the extracted
view code, which here is "L-MLO" by first-match-wins. -/
theorem both_sides_filename_counterexample :
    jsIncludes (toUpperJS "L-MLO_R-CC.png") "L-MLO" = true ∧
    jsIncludes (toUpperJS "L-MLO_R-CC.png") "R-CC" = true ∧
    handleFileChangeView "L-MLO_R-CC.png" =
      some (ViewAnalysis.mk "L-MLO" "Left" "L" "Analyzing..." none) ∧
    ("Left" : String) ≠ "Right" := by decide

/-- C3 amended: it is the extracted view code, not the filename, whose letters
decide laterality — whenever the extracted view code contains both "L" and
"R", laterality resolves to Right with laterality_code "R". -/
theorem both_letters_view_code_right (filename : String) (va : ViewAnalysis)
    (h : handleFileChangeView filename = some va)
    (hL : jsIncludes va.view_code "L" = true)
    (hR : jsIncludes va.view_code "R" = true) :
    va.laterality = "Right" ∧ va.laterality_code = "R" := by
  obtain ⟨h1, h2⟩ := view_record_fields filename va (Or.inl h)
  rw [h1, h2, hL, hR]
  exact ⟨rfl, rfl⟩

/-- Witness for the amended C3 at the concrete filename "R-MLO.png", whose
view code "R-MLO" contains both letters. -/
theorem both_letters_view_code_right_witness :
    (ViewAnalysis.mk "R-MLO" "Right" "R" "Analyzing..." none).laterality = "Right" ∧
    (ViewAnalysis.mk "R-MLO" "Right" "R" "Analyzing..." none).laterality_code = "R" :=
  both_letters_view_code_right "R-MLO.png"
    (ViewAnalysis.mk "R-MLO" "Right" "R" "Analyzing..." none)
    (by decide) (by decide) (by decide)

/-- C4: the filename "patient_L-MLO_01.png" is classified with view code
"L-MLO", laterality "Left" and laterality_code "L". -/
theorem classify_patient_lmlo :
    extractViewCodeFromFilename "patient_L-MLO_01.png" = some "L-MLO" ∧
    handleFileChangeView "patient_L-MLO_01.png" =
      some (ViewAnalysis.mk "L-MLO" "Left" "L" "Analyzing..." none) := by decide

/-- C5: view extraction is total and closed — every filename yields one of the
six view codes or `none`, and when it yields `none` neither upload path
attaches a provisional view record. -/
theorem extract_total_closed (filename : String) :
    (∀ v, extractViewCodeFromFilename filename = some v →
      v = "L-MLO" ∨ v = "R-MLO" ∨ v = "LCC" ∨ v = "RCC" ∨ v = "MLO" ∨ v = "CC") ∧
    (extractViewCodeFromFilename filename = none →
      handleFileChangeView filename = none ∧ handleDropView filename = none) := by
  constructor
  · intro v hv
    unfold extractViewCodeFromFilename at hv
    cases h1 : matchesLMLO (toUpperJS filename) <;>
    cases h2 : matchesRMLO (toUpperJS filename) <;>
    cases h3 : matchesLCC (toUpperJS filename) <;>
    cases h4 : matchesRCC (toUpperJS filename) <;>
    cases h5 : matchesMLO (toUpperJS filename) <;>
    cases h6 : matchesCC (toUpperJS filename) <;>
    simp [h1, h2, h3, h4, h5, h6] at hv <;>
    simp [← hv]
  · intro hn
    unfold handleFileChangeView handleDropView
    rw [hn]
    exact ⟨rfl, rfl⟩

/-- Witness for C5: "scan_CC.png" yields the in-enum code "CC", and
"scan.txt" yields no code and no provisional record on either path. -/
theorem extract_total_closed_witness :
    (("CC" : String) = "L-MLO" ∨ ("CC" : String) = "R-MLO" ∨ ("CC" : String) = "LCC" ∨
      ("CC" : String) = "RCC" ∨ ("CC" : String) = "MLO" ∨ ("CC" : String) = "CC") ∧
    (handleFileChangeView "scan.txt" = none ∧ handleDropView "scan.txt" = none) :=
  ⟨(extract_total_closed "scan_CC.png").1 "CC" (by decide),
   (extract_total_closed "scan.txt").2 (by decide)⟩

/-- C6: each of the five fixed risk labels maps to its non-empty display
class: very low / low → "risk-low", moderate → "risk-moderate",
high / very high → "risk-high". -/
theorem risk_labels_to_classes :
    getRiskClass (some "Very Low Risk") = "risk-low" ∧
    getRiskClass (some "Low Risk") = "risk-low" ∧
    getRiskClass (some "Moderate Risk") = "risk-moderate" ∧
    getRiskClass (some "High Risk") = "risk-high" ∧
    getRiskClass (some "Very High Risk") = "risk-high" ∧
    ("risk-low" : String) ≠ "" ∧ ("risk-moderate" : String) ≠ "" ∧
    ("risk-high" : String) ≠ "" := by decide

/-- C7: in the result record built from the `/analyze` response, the displayed
confidence is the raw confidence times 100 when defined and at most 1, the
raw confidence unchanged when greater than 1, and `none` when absent; the
stored threshold defaults to 1/2 when the response omits it. -/
theorem confidence_threshold_mapping (c : ℚ) (thr : Option ℚ) :
    (c ≤ 1 → (buildResultData ⟨some c, thr⟩).confidence = some (c * 100)) ∧
    (1 < c → (buildResultData ⟨some c, thr⟩).confidence = some c) ∧
    (buildResultData ⟨none, thr⟩).confidence = none ∧
    (buildResultData ⟨some c, none⟩).threshold = 1 / 2 := by
  refine ⟨fun hc => ?_, fun hc => ?_, rfl, rfl⟩
  · unfold buildResultData
    simp [hc]
  · unfold buildResultData
    simp [not_le.mpr hc]

/-- Witness for C7 at raw confidence 1/2 (scaled) and 2 (passed through). -/
theorem confidence_threshold_mapping_witness :
    (buildResultData ⟨some (1/2), some (3/10)⟩).confidence = some (1/2 * 100) ∧
    (buildResultData ⟨some 2, some (3/10)⟩).confidence = some 2 :=
  ⟨(confidence_threshold_mapping (1/2) (some (3/10))).1 (by norm_num),
   (confidence_threshold_mapping 2 (some (3/10))).2.1 (by norm_num)⟩

/-- C8: on both the file-select and drag-and-drop paths, every provisional
view record satisfies: laterality "Left" iff laterality_code "L", and
laterality "Right" iff laterality_code "R". -/
theorem laterality_code_invariant (filename : String) (va : ViewAnalysis)
    (h : handleFileChangeView filename = some va ∨ handleDropView filename = some va) :
    (va.laterality = "Left" ↔ va.laterality_code = "L") ∧
    (va.laterality = "Right" ↔ va.laterality_code = "R") := by
  obtain ⟨h1, h2⟩ := view_record_fields filename va h
  rw [h1, h2]
  cases jsIncludes va.view_code "L" && !(jsIncludes va.view_code "R") <;> simp

/-- Witness for C8 via the drag-and-drop path on "scan_RCC.png". -/
theorem laterality_code_invariant_witness :
    ((ViewAnalysis.mk "RCC" "Right" "R" "Analyzing..." none).laterality = "Left" ↔
      (ViewAnalysis.mk "RCC" "Right" "R" "Analyzing..." none).laterality_code = "L") ∧
    ((ViewAnalysis.mk "RCC" "Right" "R" "Analyzing..." none).laterality = "Right" ↔
      (ViewAnalysis.mk "RCC" "Right" "R" "Analyzing..." none).laterality_code = "R") :=
  laterality_code_invariant "scan_RCC.png"
    (ViewAnalysis.mk "RCC" "Right" "R" "Analyzing..." none) (Or.inr (by decide))

/-- C9: a filename with a generic MLO token and no side token gets view code
"MLO" with laterality "Left"/"L" (the string "MLO" contains "L" and no "R");
one with only a generic CC token gets view code "CC" with laterality
"Right"/"R" — side-less views still receive a definite laterality. -/
theorem generic_view_laterality (filename : String)
    (n1 : matchesLMLO (toUpperJS filename) = false)
    (n2 : matchesRMLO (toUpperJS filename) = false)
    (n3 : matchesLCC (toUpperJS filename) = false)
    (n4 : matchesRCC (toUpperJS filename) = false) :
    (matchesMLO (toUpperJS filename) = true →
      handleFileChangeView filename =
        some (ViewAnalysis.mk "MLO" "Left" "L" "Analyzing..." none)) ∧
    (matchesMLO (toUpperJS filename) = false → matchesCC (toUpperJS filename) = true →
      handleFileChangeView filename =
        some (ViewAnalysis.mk "CC" "Right" "R" "Analyzing..." none)) := by
  constructor
  · intro h5
    have hx : extractViewCodeFromFilename filename = some "MLO" := by
      unfold extractViewCodeFromFilename
      simp [n1, n2, n3, n4, h5]
    unfold handleFileChangeView
    rw [hx]
    rfl
  · intro h5 h6
    have hx : extractViewCodeFromFilename filename = some "CC" := by
      unfold extractViewCodeFromFilename
      simp [n1, n2, n3, n4, h5, h6]
    unfold handleFileChangeView
    rw [hx]
    rfl

/-- Witness for C9 at "scan_MLO.png" (generic MLO) and "img_CC.png"
(generic CC). -/
theorem generic_view_laterality_witness :
    handleFileChangeView "scan_MLO.png" =
      some (ViewAnalysis.mk "MLO" "Left" "L" "Analyzing..." none) ∧
    handleFileChangeView "img_CC.png" =
      some (ViewAnalysis.mk "CC" "Right" "R" "Analyzing..." none) :=
  ⟨(generic_view_laterality "scan_MLO.png"
      (by decide) (by decide) (by decide) (by decide)).1 (by decide),
   (generic_view_laterality "img_CC.png"
      (by decide) (by decide) (by decide) (by decide)).2 (by decide) (by decide)⟩

end BreastCancer
